import Mathlib

/-!
Verification development for the category/product domain of the
10x-Website-Backend repository: the category route validation chains
(src/routes/categoryRoutes.js), the routing middleware order, and the
Product schema with its slug derivation hook and discounted-price
virtual (src/app.js).
-/

namespace TenX

/-! Values that can occur in a parsed JSON request body field. -/

inductive JVal
  | str (s : String)
  | bool (b : Bool)
  | num (n : Int)
  | null
deriving DecidableEq

/-- Stringification used by the validator library before running string
checks: strings stay themselves, booleans print as true or false,
numbers print in decimal, and null prints as the empty string. -/
def jvalToStr : JVal → String
  | .str s => s
  | .bool b => if b then "true" else "false"
  | .num n => toString n
  | .null => ""

/-- The isString check: the raw value is an actual string. -/
def jvalIsString : JVal → Bool
  | .str _ => true
  | _ => false

/-- JavaScript truthiness on body values, as used by the checkFalsy
option: empty string, false, zero and null are falsy. -/
def jvalTruthy : JVal → Bool
  | .str s => !(s == "")
  | .bool b => b
  | .num n => !(n == 0)
  | .null => false

/-- The exists check with checkFalsy: the field is present and truthy. -/
def existsCheckFalsy : Option JVal → Bool
  | none => false
  | some v => jvalTruthy v

/-- The isLength check with a lower and upper bound, run on the
stringified value. -/
def lenBetween (lo hi : Nat) (v : Option JVal) : Bool :=
  let s := jvalToStr ((v.getD .null))
  decide (lo ≤ s.length) && decide (s.length ≤ hi)

/-- The isLength check with only an upper bound. -/
def lenAtMost (hi : Nat) (v : Option JVal) : Bool :=
  decide ((jvalToStr (v.getD .null)).length ≤ hi)

/-- The isString check lifted to an optional field (a missing field is
not a string). -/
def isStringO (v : Option JVal) : Bool :=
  jvalIsString (v.getD .null)

/-- The isIn check: the stringified value is one of the allowed
literals. -/
def isInO (allowed : List String) (v : Option JVal) : Bool :=
  allowed.contains (jvalToStr (v.getD .null))

/-- A hexadecimal digit. -/
def isHexChar (c : Char) : Bool :=
  (('0' ≤ c) && (c ≤ '9')) || (('a' ≤ c) && (c ≤ 'f')) || (('A' ≤ c) && (c ≤ 'F'))

/-- The isMongoId check: a 24 character hexadecimal string. -/
def isMongoIdStr (s : String) : Bool :=
  (s.length == 24) && s.data.all isHexChar

/-- The isMongoId check lifted to an optional field. -/
def isMongoIdO (v : Option JVal) : Bool :=
  isMongoIdStr (jvalToStr (v.getD .null))

/-- The isBoolean check: the stringified value is one of the literals
the validator library accepts as a boolean. -/
def isBooleanO (v : Option JVal) : Bool :=
  ["true", "false", "0", "1"].contains (jvalToStr (v.getD .null))

/-- A single validation rule: a predicate on the optional field value
and the message reported when the predicate fails. -/
structure VRule where
  check : Option JVal → Bool
  message : String

/-- Run a rule chain on a field value: every rule runs and the messages
of all failing rules accumulate, in chain order. -/
def runRules (rules : List VRule) (v : Option JVal) : List String :=
  rules.foldr (fun r acc => if r.check v then acc else r.message :: acc) []

/-- Run a rule chain guarded by optional: when the field is absent the
whole chain is skipped. -/
def runOptionalRules (rules : List VRule) (v : Option JVal) : List String :=
  match v with
  | none => []
  | some _ => runRules rules v

/-! The category request payload: the body fields the category
validation chains inspect. Absent fields are none. -/

structure CategoryPayload where
  name : Option JVal
  type : Option JVal
  description : Option JVal
  parent : Option JVal
  isActive : Option JVal
deriving DecidableEq

/-- A payload with no fields present. -/
def emptyPayload : CategoryPayload :=
  { name := none, type := none, description := none, parent := none, isActive := none }

/-! Validation rules for creating a category, from
createCategoryValidation in src/routes/categoryRoutes.js. -/

/-- Chain for body name on creation: exists with checkFalsy, isString,
isLength between 2 and 100. -/
def createNameRules : List VRule :=
  [ { check := existsCheckFalsy, message := "Category name is required" },
    { check := isStringO, message := "Category name must be a string" },
    { check := lenBetween 2 100, message := "Category name must be between 2 and 100 characters" } ]

/-- Chain for body type on creation: exists with checkFalsy, isString,
isIn product or blog. -/
def createTypeRules : List VRule :=
  [ { check := existsCheckFalsy, message := "Type is required" },
    { check := isStringO, message := "Type must be a string" },
    { check := isInO ["product", "blog"], message := "Type must be either product or blog" } ]

/-- Chain for body description: optional, isString, isLength at most
500. Identical in the create and update rule sets. -/
def descriptionRules : List VRule :=
  [ { check := isStringO, message := "Description must be a string" },
    { check := lenAtMost 500, message := "Description cannot exceed 500 characters" } ]

/-- Chain for body parent: optional, isMongoId. Identical in the create
and update rule sets. -/
def parentRules : List VRule :=
  [ { check := isMongoIdO, message := "Parent must be a valid category ID" } ]

/-- Shape part of the name chain (isString and isLength), shared by the
create chain and the optional update chain. -/
def nameShapeRules : List VRule :=
  [ { check := isStringO, message := "Category name must be a string" },
    { check := lenBetween 2 100, message := "Category name must be between 2 and 100 characters" } ]

/-- Shape part of the type chain (isString and isIn), shared by the
create chain and the optional update chain. -/
def typeShapeRules : List VRule :=
  [ { check := isStringO, message := "Type must be a string" },
    { check := isInO ["product", "blog"], message := "Type must be either product or blog" } ]

/-- Chain for body isActive on update: optional, isBoolean. -/
def isActiveRules : List VRule :=
  [ { check := isBooleanO, message := "isActive must be a boolean value" } ]

/-- Errors of the name field under createCategoryValidation. -/
def createNameErrors (v : Option JVal) : List String := runRules createNameRules v

/-- Errors of the type field under createCategoryValidation. -/
def createTypeErrors (v : Option JVal) : List String := runRules createTypeRules v

/-- Errors of the description field under createCategoryValidation. -/
def createDescriptionErrors (v : Option JVal) : List String := runOptionalRules descriptionRules v

/-- Errors of the parent field under createCategoryValidation. -/
def createParentErrors (v : Option JVal) : List String := runOptionalRules parentRules v

/-- Errors of the name field under updateCategoryValidation (optional,
then the same shape rules as creation). -/
def updateNameErrors (v : Option JVal) : List String := runOptionalRules nameShapeRules v

/-- Errors of the type field under updateCategoryValidation. -/
def updateTypeErrors (v : Option JVal) : List String := runOptionalRules typeShapeRules v

/-- Errors of the description field under updateCategoryValidation. -/
def updateDescriptionErrors (v : Option JVal) : List String := runOptionalRules descriptionRules v

/-- Errors of the parent field under updateCategoryValidation. -/
def updateParentErrors (v : Option JVal) : List String := runOptionalRules parentRules v

/-- Errors of the isActive field under updateCategoryValidation. -/
def updateIsActiveErrors (v : Option JVal) : List String := runOptionalRules isActiveRules v

/-- All errors reported by the createCategoryValidation rule set on a
payload, in the order the rules are declared. -/
def createCategoryValidation (p : CategoryPayload) : List String :=
  createNameErrors p.name ++ createTypeErrors p.type ++
    createDescriptionErrors p.description ++ createParentErrors p.parent

/-- All errors reported by the updateCategoryValidation rule set on a
payload, in the order the rules are declared. -/
def updateCategoryValidation (p : CategoryPayload) : List String :=
  updateNameErrors p.name ++ updateTypeErrors p.type ++
    updateDescriptionErrors p.description ++ updateParentErrors p.parent ++
    updateIsActiveErrors p.isActive

/-- Errors of the id path parameter rule: param id must be a Mongo
ObjectId, reported as Invalid category ID. -/
def idParamErrors (idp : String) : List String :=
  if isMongoIdStr idp then [] else ["Invalid category ID"]

/-! The router layer for /api/categories, from
src/routes/categoryRoutes.js: each route is an ordered middleware
chain. The auth middleware, role middleware, validate middleware,
controllers and role constants live in files the repository excerpt
does not contain, so those pieces are modelled from the spec; the
chains themselves and the validation rule sets are from the source. -/

/-- Modelled from the spec: the constants file src/constants/userRoles
is absent; the spec names the two privileged roles admin and
super-admin. -/
def ADMIN : String := "admin"

/-- Modelled from the spec: the super-admin role constant. -/
def SUPER_ADMIN : String := "super-admin"

/-- Modelled from the spec: the authenticated identity the
authentication provider attaches to a request, carrying its role. -/
structure AuthUser where
  role : String
deriving DecidableEq

/-- An incoming request to a category route: the optional authenticated
identity, the parsed body, and the id path parameter (empty on routes
without one). -/
structure Request where
  user : Option AuthUser
  body : CategoryPayload
  idParam : String

/-- A stored category record: an id assigned by the storage layer and
the persisted payload. -/
structure StoredCategory where
  id : String
  data : CategoryPayload
deriving DecidableEq

/-- The responses the chain can produce. -/
inductive Response
  | created
  | ok
  | unauthenticated
  | forbidden
  | validationFail (errors : List String)
  | notFound
deriving DecidableEq

/-- Modelled from the spec: the createCategory controller persists a
new record built from the request body (storage assigns the id). -/
def createCategoryController (r : Request) (st : List StoredCategory) :
    Response × List StoredCategory :=
  (.created, st ++ [{ id := toString st.length, data := r.body }])

/-- Take the new field value when present, else keep the stored one. -/
def updField (old new : Option JVal) : Option JVal :=
  match new with
  | some v => some v
  | none => old

/-- Modelled from the spec: partial update semantics, a field omitted
from the update payload keeps its stored value. -/
def mergePayload (old new : CategoryPayload) : CategoryPayload :=
  { name := updField old.name new.name,
    type := updField old.type new.type,
    description := updField old.description new.description,
    parent := updField old.parent new.parent,
    isActive := updField old.isActive new.isActive }

/-- Modelled from the spec: the updateCategory controller applies a
partial update to the record with the requested id, or reports
not-found. -/
def updateCategoryController (r : Request) (st : List StoredCategory) :
    Response × List StoredCategory :=
  if st.any (fun c => c.id == r.idParam) then
    (.ok, st.map (fun c => if c.id == r.idParam then { c with data := mergePayload c.data r.body } else c))
  else (.notFound, st)

/-- Modelled from the spec: the deleteCategory controller removes the
record with the requested id, or reports not-found. -/
def deleteCategoryController (r : Request) (st : List StoredCategory) :
    Response × List StoredCategory :=
  if st.any (fun c => c.id == r.idParam) then
    (.ok, st.filter (fun c => !(c.id == r.idParam)))
  else (.notFound, st)

/-- Modelled from the spec: the getCategoryById controller reads the
record with the requested id and never mutates state. -/
def getCategoryByIdController (r : Request) (st : List StoredCategory) :
    Response × List StoredCategory :=
  if st.any (fun c => c.id == r.idParam) then (.ok, st) else (.notFound, st)

/-- Modelled from the spec: the getAllCategories controller reads and
never mutates state. -/
def getAllCategoriesController (_ : Request) (st : List StoredCategory) :
    Response × List StoredCategory :=
  (.ok, st)

/-- A middleware in a route chain: the authentication gate, the role
gate, a validation rule layer that records errors in the request
context, the validate middleware that short-circuits on recorded
errors, or the terminal controller handler. -/
inductive MW
  | auth
  | roleGate (roles : List String)
  | rules (collect : Request → List String)
  | validateGate
  | handler (run : Request → List StoredCategory → Response × List StoredCategory)

/-- The kind of a middleware, forgetting its parameters. -/
inductive MWKind
  | auth
  | roleGate
  | validationRules
  | validateGate
  | handler
deriving DecidableEq

/-- Project a middleware to its kind. -/
def MW.kind : MW → MWKind
  | .auth => .auth
  | .roleGate _ => .roleGate
  | .rules _ => .validationRules
  | .validateGate => .validateGate
  | .handler _ => .handler

/-- Run a middleware chain on a request. The auth middleware (modelled
from the spec) halts with an authentication failure when no identity is
attached; the role gate (modelled from the spec) halts with an
authorization failure unless the identity role is in the required set;
a rules layer appends its error messages to the request context; the
validate middleware (modelled from the spec) halts with the recorded
field errors when any rule failed; the handler produces the response.
An exhausted chain falls through to the framework not-found handler. -/
def runChain : List MW → Request → List String → List StoredCategory →
    Response × List StoredCategory
  | [], _, _, st => (.notFound, st)
  | mw :: rest, r, errs, st =>
    match mw with
    | .auth =>
      match r.user with
      | none => (.unauthenticated, st)
      | some _ => runChain rest r errs st
    | .roleGate roles =>
      match r.user with
      | none => (.forbidden, st)
      | some u => if u.role ∈ roles then runChain rest r errs st else (.forbidden, st)
    | .rules collect => runChain rest r (errs ++ collect r) st
    | .validateGate =>
      if errs.isEmpty then runChain rest r errs st else (.validationFail errs, st)
    | .handler run => run r st

/-- The GET /api/categories route chain. -/
def categoriesGetChain : List MW := [.handler getAllCategoriesController]

/-- The GET /api/categories/:id route chain: the param id isMongoId
rule, the validate middleware, then the controller. -/
def categoriesGetByIdChain : List MW :=
  [ .rules (fun r => idParamErrors r.idParam),
    .validateGate,
    .handler getCategoryByIdController ]

/-- The POST /api/categories route chain: auth, the admin role gate,
the createCategoryValidation rules, the validate middleware, then the
controller. -/
def categoriesPostChain : List MW :=
  [ .auth,
    .roleGate [ADMIN, SUPER_ADMIN],
    .rules (fun r => createCategoryValidation r.body),
    .validateGate,
    .handler createCategoryController ]

/-- The PUT /api/categories/:id route chain: auth, the admin role gate,
the param id rule followed by the updateCategoryValidation rules, the
validate middleware, then the controller. -/
def categoriesPutChain : List MW :=
  [ .auth,
    .roleGate [ADMIN, SUPER_ADMIN],
    .rules (fun r => idParamErrors r.idParam ++ updateCategoryValidation r.body),
    .validateGate,
    .handler updateCategoryController ]

/-- The DELETE /api/categories/:id route chain: auth, the admin role
gate, the param id rule, the validate middleware, then the
controller. -/
def categoriesDeleteChain : List MW :=
  [ .auth,
    .roleGate [ADMIN, SUPER_ADMIN],
    .rules (fun r => idParamErrors r.idParam),
    .validateGate,
    .handler deleteCategoryController ]

/-- Does some middleware satisfying p occur strictly before some later
middleware satisfying q in the kind list? -/
def occursBefore (p q : MWKind → Bool) : List MWKind → Bool
  | [] => false
  | k :: rest => (p k && rest.any q) || occursBefore p q rest

/-- Validation middlewares: the rule layers and the validate gate. -/
def isValidationK : MWKind → Bool
  | .validationRules => true
  | .validateGate => true
  | _ => false

/-- Auth middlewares: the authentication gate and the role gate. -/
def isAuthK : MWKind → Bool
  | .auth => true
  | .roleGate => true
  | _ => false

/-- The controller handler. -/
def isHandlerK : MWKind → Bool
  | .handler => true
  | _ => false

/-- Kinds of the POST chain. -/
def categoriesPostKinds : List MWKind := categoriesPostChain.map MW.kind

/-- Kinds of the PUT chain. -/
def categoriesPutKinds : List MWKind := categoriesPutChain.map MW.kind

/-- Kinds of the DELETE chain. -/
def categoriesDeleteKinds : List MWKind := categoriesDeleteChain.map MW.kind

/-! The Product model layer, from the Mongoose schemas in src/app.js:
VariantSchema, AccordionSchema, ProductSchema, the discountedPrices
virtual and the slug pre-save hook. -/

/-- A purchasable variant, from VariantSchema. -/
structure Variant where
  size : String
  price : ℚ
  stock : ℚ
deriving DecidableEq

/-- The accordion sub-document, from AccordionSchema. -/
structure Accordion where
  details : String
  shipping : String
  returns : String
deriving DecidableEq

/-- A Product document, fields in schema order. An absent slug is
none. Tags are ObjectId strings referencing Tag documents. -/
structure Product where
  title : String
  description : String
  discountPercentage : ℚ
  brand : String
  slug : Option String
  rating : ℚ
  category : String
  thumbnail : String
  images : List String
  productBG : String
  variants : List Variant
  packaging : List String
  accordion : Accordion
  tags : List String
  isActive : Bool
deriving DecidableEq

/-- Emit a message when a check fails. -/
def require (ok : Bool) (msg : String) : List String :=
  if ok then [] else [msg]

/-- The trim setter: whitespace stripped from both ends. -/
def trimStr (s : String) : String :=
  String.mk (((s.data.dropWhile Char.isWhitespace).reverse.dropWhile Char.isWhitespace).reverse)

/-- The custom arrayLimit validator from src/app.js: the value has
length greater than zero. The schema attaches it to the variants array
itself, but declares it inside the images array element options, where
it applies to each element string instead of to the array. -/
def arrayLimit {α : Type} (val : List α) : Bool :=
  decide (val.length > 0)

/-- The image URL pattern of the schema: an http or https URL ending in
an image extension, case-insensitive, with at least one character
between the protocol and the final dot. -/
def isImageUrl (s : String) : Bool :=
  let t := s.data.map Char.toLower
  let check := fun (pre : String) =>
    pre.data.isPrefixOf t &&
      ["jpg", "jpeg", "png", "gif"].any (fun ext =>
        ("." ++ ext).data.isSuffixOf t && decide (t.length ≥ pre.length + ext.length + 2))
  check "http://" || check "https://"

/-- Validation of one variant, from VariantSchema: size required and at
most 20 characters, price required and non-negative, stock
non-negative. -/
def validateVariant (v : Variant) : List String :=
  require (!(trimStr v.size == "")) "Variant size is required" ++
  require (decide ((trimStr v.size).length ≤ 20)) "Size cannot exceed 20 characters" ++
  require (decide (0 ≤ v.price)) "Price cannot be negative" ++
  require (decide (0 ≤ v.stock)) "Stock cannot be negative"

/-- Validation of the accordion sub-document, from AccordionSchema. -/
def validateAccordion (a : Accordion) : List String :=
  require (!(trimStr a.details == "")) "Details section is required" ++
  require (decide ((trimStr a.details).length ≤ 1000)) "Details cannot exceed 1000 characters" ++
  require (!(trimStr a.shipping == "")) "Shipping information is required" ++
  require (decide ((trimStr a.shipping).length ≤ 1000)) "Shipping information cannot exceed 1000 characters" ++
  require (!(trimStr a.returns == "")) "Returns policy is required" ++
  require (decide ((trimStr a.returns).length ≤ 1000)) "Returns policy cannot exceed 1000 characters"

/-- Validation of a Product document against ProductSchema, fields in
schema order. String setters (trim) apply before checks. The variants
field carries the arrayLimit validator on the array itself; in the
images field the validator sits in the element options, so it runs once
per element (on the element string) and never on the array, and the
images array has no required flag. Tag references are checked against
the external Tag collection, abstracted as the tagExists oracle. -/
def validateProduct (tagExists : String → Bool) (p : Product) : List String :=
  require (!(trimStr p.title == "")) "Title is required" ++
  require (decide (3 ≤ (trimStr p.title).length)) "Title must be at least 3 characters long" ++
  require (decide ((trimStr p.title).length ≤ 100)) "Title cannot exceed 100 characters" ++
  require (!(trimStr p.description == "")) "Description is required" ++
  require (decide ((trimStr p.description).length ≤ 1000)) "Description cannot exceed 1000 characters" ++
  require (decide (0 ≤ p.discountPercentage)) "Discount cannot be negative" ++
  require (decide (p.discountPercentage ≤ 100)) "Discount cannot exceed 100%" ++
  require (!(trimStr p.brand == "")) "Brand is required" ++
  require (decide ((trimStr p.brand).length ≤ 50)) "Brand name cannot exceed 50 characters" ++
  (match p.slug with
   | none => []
   | some s => require (decide ((trimStr s).length ≤ 100)) "Slug cannot exceed 100 characters") ++
  require (decide (0 ≤ p.rating)) "Rating cannot be less than 0" ++
  require (decide (p.rating ≤ 5)) "Rating cannot exceed 5" ++
  require (!(trimStr p.category == "")) "Category is required" ++
  require (["Beverages", "Snacks", "Health", "Other"].contains (trimStr p.category))
    "category is not a valid enum value" ++
  require (!(trimStr p.thumbnail == "")) "Thumbnail is required" ++
  require (isImageUrl (trimStr p.thumbnail)) "Please enter a valid image URL" ++
  ((p.images.map (fun img =>
      require (isImageUrl (trimStr img)) "Please enter valid image URLs" ++
      require (decide ((trimStr img).length > 0)) "images must have at least one image")).flatten) ++
  require (!(trimStr p.productBG == "")) "productBG is required" ++
  require (isImageUrl (trimStr p.productBG)) "Please enter a valid background image URL" ++
  require (arrayLimit p.variants) "variants must have at least one variant" ++
  ((p.variants.map validateVariant).flatten) ++
  ((p.packaging.map (fun x =>
      require (["Bottle", "Box", "Canister"].contains x) "packaging is not a valid enum value")).flatten) ++
  validateAccordion p.accordion ++
  ((p.tags.map (fun t => require (tagExists t) "One or more tags are invalid.")).flatten)

/-- The virtual discountedPrices entry: a variant size with its
discounted price. -/
structure DiscountedPrice where
  size : String
  discountedPrice : ℚ
deriving DecidableEq

/-- The discountedPrices virtual of ProductSchema: for each variant,
its size and its price reduced by discountPercentage percent. -/
def discountedPrices (p : Product) : List DiscountedPrice :=
  p.variants.map (fun v =>
    { size := v.size, discountedPrice := v.price - (v.price * p.discountPercentage) / 100 })

/-! Slug derivation. The pre-save hook in src/app.js calls the external
slugify package with the lower and strict options; the package source
is not part of the repository, so its transform is modelled from the
spec. -/

/-- ASCII letters and digits. -/
def isAsciiAlnum (c : Char) : Bool :=
  (65 ≤ c.toNat && c.toNat ≤ 90) || (97 ≤ c.toNat && c.toNat ≤ 122) ||
    (48 ≤ c.toNat && c.toNat ≤ 57)

/-- Collapse runs of whitespace into a single hyphen. The flag records
whether the previous character was whitespace, so a run emits one
hyphen. -/
def collapseWs : List Char → Bool → List Char
  | [], _ => []
  | c :: rest, prevWs =>
    if c.isWhitespace then
      (if prevWs then [] else ['-']) ++ collapseWs rest true
    else c :: collapseWs rest false

/-- Modelled from the spec: the slugify package (absent from the
repository) applied with the lower and strict options, per the spec
rule of section 4.2: strip punctuation (strict mode keeps only ASCII
alphanumerics and whitespace), trim, collapse whitespace to single
hyphens, and lowercase. -/
def slugifyStrictLower (s : String) : String :=
  let kept := s.data.filter (fun c => isAsciiAlnum c || c.isWhitespace)
  let trimmed := ((kept.dropWhile Char.isWhitespace).reverse.dropWhile Char.isWhitespace).reverse
  String.mk ((collapseWs trimmed false).map Char.toLower)

/-- JavaScript falsiness of the slug field as tested by the hook: the
field is unset or the empty string. -/
def slugFalsy : Option String → Bool
  | none => true
  | some s => s == ""

/-- The pre-save hook of ProductSchema: when the slug is falsy, set it
to slugify of the title with the lower and strict options. -/
def preSaveSlug (p : Product) : Product :=
  if slugFalsy p.slug then { p with slug := some (slugifyStrictLower p.title) } else p

/-- A slug character: a lowercase ASCII letter, a digit, or a hyphen. -/
def isSlugChar (c : Char) : Bool :=
  (97 ≤ c.toNat && c.toNat ≤ 122) || (48 ≤ c.toNat && c.toNat ≤ 57) || (c == '-')

/-! Concrete sample values used by the witness theorems. -/

/-- A well-formed variant. -/
def sampleVariant : Variant := { size := "250ml", price := 100, stock := 5 }

/-- A well-formed accordion sub-document. -/
def sampleAccordion : Accordion :=
  { details := "Product details here", shipping := "Ships in 2 days",
    returns := "Returns within 30 days" }

/-- A Product payload that satisfies every schema constraint. -/
def sampleProduct : Product :=
  { title := "Cold Brew Coffee"
    description := "A smooth cold brew."
    discountPercentage := 10
    brand := "10X"
    slug := none
    rating := 0
    category := "Beverages"
    thumbnail := "http://example.com/thumb.jpg"
    images := ["http://example.com/a.jpg"]
    productBG := "http://example.com/bg.jpg"
    variants := [sampleVariant]
    packaging := ["Bottle"]
    accordion := sampleAccordion
    tags := []
    isActive := true }

/-- The sample product with an empty images list. -/
def sampleProductNoImages : Product := { sampleProduct with images := [] }

/-- The sample product with an empty variants list. -/
def sampleProductNoVariants : Product := { sampleProduct with variants := [] }

/-- The sample product with an explicitly set slug. -/
def sampleProductWithSlug : Product := { sampleProduct with slug := some "custom-slug" }

/-- A request authenticated with a plain user role. -/
def nonAdminRequest : Request :=
  { user := some { role := "user" }, body := emptyPayload, idParam := "" }

/-- A non-admin request to an id route with a malformed id. -/
def invalidIdNonAdminRequest : Request :=
  { user := some { role := "user" }, body := emptyPayload, idParam := "not-an-object-id" }

/-- An admin request to an id route with a malformed id. -/
def invalidIdAdminRequest : Request :=
  { user := some { role := "admin" }, body := emptyPayload, idParam := "not-an-object-id" }

/-- The empty payload with a one character name. -/
def shortNamePayload : CategoryPayload := { emptyPayload with name := some (.str "a") }

/-! Claim theorems. -/

/-- C1 counterexample: the claim says the mutating category routes run
validation before the auth and role middleware, but in the POST chain
(and likewise PUT and DELETE) no validation middleware occurs before
any auth middleware, although both kinds occur in the chain. -/
theorem categories_post_validation_not_before_auth :
    occursBefore isValidationK isAuthK categoriesPostKinds = false ∧
    categoriesPostKinds.any isValidationK = true ∧
    categoriesPostKinds.any isAuthK = true := by
  decide

/-- C1 amended: for every mutating category route (POST, PUT, DELETE)
the chain runs the auth and role middleware first, then the validation
middleware, and the controller handler last. -/
theorem categories_mutating_chain_order :
    (occursBefore isAuthK isValidationK categoriesPostKinds = true ∧
     occursBefore isValidationK isAuthK categoriesPostKinds = false ∧
     occursBefore isHandlerK isValidationK categoriesPostKinds = false ∧
     occursBefore isHandlerK isAuthK categoriesPostKinds = false ∧
     categoriesPostKinds.getLast? = some .handler) ∧
    (occursBefore isAuthK isValidationK categoriesPutKinds = true ∧
     occursBefore isValidationK isAuthK categoriesPutKinds = false ∧
     occursBefore isHandlerK isValidationK categoriesPutKinds = false ∧
     occursBefore isHandlerK isAuthK categoriesPutKinds = false ∧
     categoriesPutKinds.getLast? = some .handler) ∧
    (occursBefore isAuthK isValidationK categoriesDeleteKinds = true ∧
     occursBefore isValidationK isAuthK categoriesDeleteKinds = false ∧
     occursBefore isHandlerK isValidationK categoriesDeleteKinds = false ∧
     occursBefore isHandlerK isAuthK categoriesDeleteKinds = false ∧
     categoriesDeleteKinds.getLast? = some .handler) := by
  decide

/-- C2: the schema as written accepts a product whose images list is
empty (the arrayLimit validator sits in the images element options and
never runs on an empty array, and images carries no required flag),
while an empty variants list is rejected by the field-level arrayLimit
validator. The spec requires both lists to be non-empty. -/
theorem product_empty_images_accepted_empty_variants_rejected :
    validateProduct (fun _ => true) sampleProductNoImages = [] ∧
    validateProduct (fun _ => true) sampleProductNoVariants =
      ["variants must have at least one variant"] := by
  constructor <;> decide

/-- C7: a POST /api/categories request whose authenticated identity
role is outside the admin and super-admin set is rejected with an
authorization failure and the stored state is unchanged. -/
theorem categories_post_nonadmin_rejected (r : Request) (u : AuthUser)
    (st : List StoredCategory) (hu : r.user = some u)
    (hrole : u.role ∉ [ADMIN, SUPER_ADMIN]) :
    runChain categoriesPostChain r [] st = (.forbidden, st) := by
  simp [categoriesPostChain, runChain, hu, hrole]

/-- C7 witness: a concrete request with role user is rejected. -/
theorem categories_post_nonadmin_rejected_witness :
    runChain categoriesPostChain nonAdminRequest [] [] = (.forbidden, []) :=
  categories_post_nonadmin_rejected nonAdminRequest { role := "user" } [] rfl (by decide)

/-- C10 counterexample: a PUT request with a malformed id but a
non-admin identity is rejected by the role gate, not by the validation
middleware with the Invalid category ID message, because auth runs
first on the mutating routes. -/
theorem categories_put_invalid_id_nonadmin_forbidden :
    isMongoIdStr invalidIdNonAdminRequest.idParam = false ∧
    runChain categoriesPutChain invalidIdNonAdminRequest [] [] = (.forbidden, []) ∧
    (∀ es : List String, Response.forbidden ≠ Response.validationFail es) := by
  refine ⟨by decide, by decide, fun es h => Response.noConfusion h⟩

/-- C10 amended: a GET by id request with a malformed id is always
rejected with the Invalid category ID message before the controller
runs; on PUT and DELETE that rejection happens for every request whose
identity passes the auth and role gates, an unauthenticated request is
rejected by the auth middleware, and a request whose role is outside
the admin set is rejected by the role gate, in each case before the id
validation message can be produced; in every case the stored state is
unchanged. -/
theorem categories_invalid_id_rejected (r : Request) (st : List StoredCategory)
    (hid : isMongoIdStr r.idParam = false) :
    runChain categoriesGetByIdChain r [] st = (.validationFail ["Invalid category ID"], st) ∧
    (r.user = none →
      runChain categoriesPutChain r [] st = (.unauthenticated, st) ∧
      runChain categoriesDeleteChain r [] st = (.unauthenticated, st)) ∧
    (∀ u : AuthUser, r.user = some u → u.role ∉ [ADMIN, SUPER_ADMIN] →
      runChain categoriesPutChain r [] st = (.forbidden, st) ∧
      runChain categoriesDeleteChain r [] st = (.forbidden, st)) ∧
    (∀ u : AuthUser, r.user = some u → u.role ∈ [ADMIN, SUPER_ADMIN] →
      (∃ errs, runChain categoriesPutChain r [] st = (.validationFail errs, st) ∧
        "Invalid category ID" ∈ errs) ∧
      runChain categoriesDeleteChain r [] st = (.validationFail ["Invalid category ID"], st)) := by
  refine ⟨?_, ?_, ?_, ?_⟩
  · simp [categoriesGetByIdChain, runChain, idParamErrors, hid]
  · intro hu
    constructor
    · simp [categoriesPutChain, runChain, hu]
    · simp [categoriesDeleteChain, runChain, hu]
  · intro u hu hrole
    constructor
    · simp [categoriesPutChain, runChain, hu, hrole]
    · simp [categoriesDeleteChain, runChain, hu, hrole]
  · intro u hu hrole
    refine ⟨⟨"Invalid category ID" :: updateCategoryValidation r.body, ?_, List.mem_cons_self _ _⟩, ?_⟩
    · simp [categoriesPutChain, runChain, idParamErrors, hid, hu, hrole]
    · simp [categoriesDeleteChain, runChain, idParamErrors, hid, hu, hrole]

/-- C10 witness: with a malformed id, a concrete admin request gets the
Invalid category ID rejection on the GET by id and DELETE chains, and a
concrete non-admin request gets the role-gate rejection on the PUT
chain. -/
theorem categories_invalid_id_rejected_witness :
    runChain categoriesGetByIdChain invalidIdAdminRequest [] [] =
      (.validationFail ["Invalid category ID"], []) ∧
    runChain categoriesDeleteChain invalidIdAdminRequest [] [] =
      (.validationFail ["Invalid category ID"], []) ∧
    runChain categoriesPutChain invalidIdNonAdminRequest [] [] = (.forbidden, []) :=
  ⟨(categories_invalid_id_rejected invalidIdAdminRequest [] (by decide)).1,
   ((categories_invalid_id_rejected invalidIdAdminRequest [] (by decide)).2.2.2
     { role := "admin" } rfl (by decide)).2,
   ((categories_invalid_id_rejected invalidIdNonAdminRequest [] (by decide)).2.2.1
     { role := "user" } rfl (by decide)).1⟩

/-- Unfolding of the hook when the slug is falsy. -/
theorem preSaveSlug_of_falsy (p : Product) (h : slugFalsy p.slug = true) :
    preSaveSlug p = { p with slug := some (slugifyStrictLower p.title) } := by
  unfold preSaveSlug
  rw [if_pos h]

/-- Unfolding of the hook when the slug is already set. -/
theorem preSaveSlug_of_set (p : Product) (h : slugFalsy p.slug = false) :
    preSaveSlug p = p := by
  unfold preSaveSlug
  rw [if_neg]
  simp [h]

/-- C3: when a product is saved with a falsy slug, the hook derives the
slug from the title by the slugify transform (strip punctuation,
collapse whitespace to single hyphens, lowercase); in particular the
title Cold Brew Coffee derives the slug cold-brew-coffee. -/
theorem product_presave_derives_slug :
    (∀ p : Product, slugFalsy p.slug = true →
      (preSaveSlug p).slug = some (slugifyStrictLower p.title)) ∧
    slugifyStrictLower "Cold Brew Coffee" = "cold-brew-coffee" := by
  constructor
  · intro p hp
    rw [preSaveSlug_of_falsy p hp]
  · decide

/-- C3 witness: the sample product has no slug, and the hook fills it
in from the title. -/
theorem product_presave_derives_slug_witness :
    (preSaveSlug sampleProduct).slug = some (slugifyStrictLower sampleProduct.title) :=
  product_presave_derives_slug.1 sampleProduct rfl

/-- C4: the pre-save hook is idempotent (running it twice equals
running it once, so the same title always yields the same slug), and a
product whose slug is already set keeps it unchanged on re-save. -/
theorem product_presave_idempotent :
    (∀ p : Product, preSaveSlug (preSaveSlug p) = preSaveSlug p) ∧
    (∀ p : Product, slugFalsy p.slug = false → (preSaveSlug p).slug = p.slug) := by
  constructor
  · intro p
    by_cases h : slugFalsy p.slug = true
    · rw [preSaveSlug_of_falsy p h]
      by_cases h2 : slugifyStrictLower p.title = ""
      · rw [preSaveSlug_of_falsy _ (by simp [slugFalsy, h2])]
      · rw [preSaveSlug_of_set _ (by simp [slugFalsy, h2])]
    · have hf : slugFalsy p.slug = false := by
        revert h
        cases slugFalsy p.slug <;> simp
      rw [preSaveSlug_of_set p hf, preSaveSlug_of_set p hf]
  · intro p hp
    rw [preSaveSlug_of_set p hp]

/-- C4 witness: the sample product with an explicit slug keeps it. -/
theorem product_presave_idempotent_witness :
    (preSaveSlug sampleProductWithSlug).slug = sampleProductWithSlug.slug :=
  product_presave_idempotent.2 sampleProductWithSlug rfl

/-- Fallback variant for out-of-range reads. -/
def defaultVariant : Variant := { size := "", price := 0, stock := 0 }

/-- Fallback discounted entry for out-of-range reads. -/
def defaultDiscounted : DiscountedPrice := { size := "", discountedPrice := 0 }

/-- C8: the discountedPrices virtual has one entry per variant, and the
entry at each index carries that variant size and its price reduced by
discountPercentage percent. -/
theorem product_discounted_prices_spec (p : Product) :
    (discountedPrices p).length = p.variants.length ∧
    ∀ i : Nat, i < p.variants.length →
      (discountedPrices p).getD i defaultDiscounted =
        { size := (p.variants.getD i defaultVariant).size,
          discountedPrice := (p.variants.getD i defaultVariant).price -
            ((p.variants.getD i defaultVariant).price * p.discountPercentage) / 100 } := by
  constructor
  · simp [discountedPrices]
  · intro i hi
    have h1 : p.variants[i]? = some p.variants[i] := List.getElem?_eq_getElem hi
    simp [discountedPrices, h1]

/-- C8 witness: the sample product with one variant of price 100 and a
10 percent discount yields the entry with discounted price 90. -/
theorem product_discounted_prices_spec_witness :
    (discountedPrices sampleProduct).getD 0 defaultDiscounted =
      { size := (sampleProduct.variants.getD 0 defaultVariant).size,
        discountedPrice := (sampleProduct.variants.getD 0 defaultVariant).price -
          ((sampleProduct.variants.getD 0 defaultVariant).price * sampleProduct.discountPercentage) / 100 } :=
  (product_discounted_prices_spec sampleProduct).2 0 (by decide)

/-- Converting a scalar value below the surrogate range back to a
natural number is the identity. -/
theorem toNat_ofNat_valid (m : Nat) (h : m < 55296) : (Char.ofNat m).toNat = m := by
  rw [Char.ofNat, dif_pos (Or.inl h)]
  rfl

/-- Lowercasing an ASCII alphanumeric character lands in the slug
character set. -/
theorem isSlugChar_toLower (c : Char) (h : isAsciiAlnum c = true) :
    isSlugChar c.toLower = true := by
  simp only [isAsciiAlnum, Bool.or_eq_true, Bool.and_eq_true, decide_eq_true_eq] at h
  simp only [Char.toLower]
  by_cases hc : c.toNat ≥ 65 ∧ c.toNat ≤ 90
  · rw [if_pos hc]
    have hv : (Char.ofNat (c.toNat + 32)).toNat = c.toNat + 32 :=
      toNat_ofNat_valid _ (by omega)
    simp only [isSlugChar, Bool.or_eq_true, Bool.and_eq_true, decide_eq_true_eq, hv]
    exact Or.inl (Or.inl (by omega))
  · rw [if_neg hc]
    simp only [isSlugChar, Bool.or_eq_true, Bool.and_eq_true, decide_eq_true_eq, beq_iff_eq]
    rcases h with (h1 | h2) | h3
    · exact absurd ⟨h1.1, h1.2⟩ hc
    · exact Or.inl (Or.inl h2)
    · exact Or.inl (Or.inr h3)

/-- Every character the whitespace collapse emits is a hyphen or a
non-whitespace character of the input. -/
theorem mem_collapseWs (l : List Char) (b : Bool) (c : Char)
    (hc : c ∈ collapseWs l b) : c = '-' ∨ (c ∈ l ∧ c.isWhitespace = false) := by
  induction l generalizing b with
  | nil => simp [collapseWs] at hc
  | cons d rest ih =>
    simp only [collapseWs] at hc
    by_cases hd : d.isWhitespace = true
    · rw [if_pos hd] at hc
      rcases List.mem_append.1 hc with h1 | h2
      · cases b with
        | true => simp at h1
        | false =>
          simp at h1
          exact Or.inl h1
      · rcases ih true h2 with h | ⟨hm, hw⟩
        · exact Or.inl h
        · exact Or.inr ⟨List.mem_cons_of_mem _ hm, hw⟩
    · rw [if_neg hd] at hc
      rcases List.mem_cons.1 hc with h | h
      · subst h
        refine Or.inr ⟨List.mem_cons_self _ _, ?_⟩
        revert hd
        cases c.isWhitespace <;> simp
      · rcases ih false h with h | ⟨hm, hw⟩
        · exact Or.inl h
        · exact Or.inr ⟨List.mem_cons_of_mem _ hm, hw⟩

/-- Every character of a derived slug is a lowercase ASCII letter, a
digit, or a hyphen. -/
theorem slugify_chars (s : String) (c : Char)
    (hc : c ∈ (slugifyStrictLower s).data) : isSlugChar c = true := by
  simp only [slugifyStrictLower, String.data] at hc
  rcases List.mem_map.1 hc with ⟨d, hd, hdc⟩
  subst hdc
  rcases mem_collapseWs _ _ _ hd with h | ⟨hm, hw⟩
  · rw [h]
    decide
  · have hm2 := (List.dropWhile_subset _) ((List.mem_reverse).1
      ((List.dropWhile_subset _) ((List.mem_reverse).1 hm)))
    have hp := List.of_mem_filter hm2
    have halnum : isAsciiAlnum d = true := by
      rw [Bool.or_eq_true] at hp
      rcases hp with h | h
      · exact h
      · rw [hw] at h
        cases h
    exact isSlugChar_toLower d halnum

/-- C9: for every title, every character of the slug the pre-save hook
derives (slugify with the lower and strict options) is a lowercase
ASCII letter, a digit, or a hyphen. -/
theorem product_presave_slug_charset (p : Product) (hp : slugFalsy p.slug = true)
    (c : Char) (hc : c ∈ (((preSaveSlug p).slug).getD "").data) :
    isSlugChar c = true := by
  rw [preSaveSlug_of_falsy p hp] at hc
  exact slugify_chars p.title c hc

/-- C9 witness: a concrete character of the slug derived for the sample
product is in the slug character set. -/
theorem product_presave_slug_charset_witness : isSlugChar 'c' = true :=
  product_presave_slug_charset sampleProduct rfl 'c' (by decide)

/-- A rule chain reports no error exactly when every rule passes. -/
theorem runRules_eq_nil (rules : List VRule) (v : Option JVal) :
    runRules rules v = [] ↔ ∀ r ∈ rules, r.check v = true := by
  induction rules with
  | nil => simp [runRules]
  | cons r rest ih =>
    simp only [runRules, List.foldr] at ih ⊢
    by_cases h : r.check v = true
    · simp [h, ih]
    · simp [h]

/-- A field value that the isString check accepts is a string. -/
theorem jvalIsString_eq : ∀ v : JVal, jvalIsString v = true → ∃ s, v = .str s
  | .str s, _ => ⟨s, rfl⟩
  | .bool _, h => Bool.noConfusion h
  | .num _, h => Bool.noConfusion h
  | .null, h => Bool.noConfusion h

/-- A string of length at least two is truthy. -/
theorem truthy_of_two_le (s : String) (h : 2 ≤ s.length) : jvalTruthy (.str s) = true := by
  have hne : s ≠ "" := by
    intro hs
    subst hs
    exact absurd h (by decide)
  simp [jvalTruthy, hne]

/-- C5: on creation, name and type are mandatory (their absence is
reported); on update the empty payload passes (every field optional),
each present field is accepted exactly when it meets the claimed
type and shape constraints, and for the shared fields a present value
passes the update rules exactly when it passes the creation rules. -/
theorem category_create_required_update_optional :
    ("Category name is required" ∈ createCategoryValidation emptyPayload) ∧
    ("Type is required" ∈ createCategoryValidation emptyPayload) ∧
    (updateCategoryValidation emptyPayload = []) ∧
    (∀ v : JVal, updateNameErrors (some v) = [] ↔
      (jvalIsString v = true ∧ 2 ≤ (jvalToStr v).length ∧ (jvalToStr v).length ≤ 100)) ∧
    (∀ v : JVal, updateTypeErrors (some v) = [] ↔
      (jvalIsString v = true ∧ jvalToStr v ∈ ["product", "blog"])) ∧
    (∀ v : JVal, updateDescriptionErrors (some v) = [] ↔
      (jvalIsString v = true ∧ (jvalToStr v).length ≤ 500)) ∧
    (∀ v : JVal, updateParentErrors (some v) = [] ↔ isMongoIdStr (jvalToStr v) = true) ∧
    (∀ v : JVal, updateIsActiveErrors (some v) = [] ↔
      jvalToStr v ∈ ["true", "false", "0", "1"]) ∧
    (∀ v : JVal, createNameErrors (some v) = [] ↔ updateNameErrors (some v) = []) ∧
    (∀ v : JVal, createTypeErrors (some v) = [] ↔ updateTypeErrors (some v) = []) ∧
    (∀ v : JVal, createDescriptionErrors (some v) = [] ↔ updateDescriptionErrors (some v) = []) ∧
    (∀ v : JVal, createParentErrors (some v) = [] ↔ updateParentErrors (some v) = []) := by
  refine ⟨by decide, by decide, by decide, ?_, ?_, ?_, ?_, ?_, ?_, ?_,
    fun v => Iff.rfl, fun v => Iff.rfl⟩
  · intro v
    show runRules nameShapeRules (some v) = [] ↔ _
    rw [runRules_eq_nil]
    simp [nameShapeRules, isStringO, lenBetween, and_assoc]
  · intro v
    show runRules typeShapeRules (some v) = [] ↔ _
    rw [runRules_eq_nil]
    simp [typeShapeRules, isStringO, isInO, and_assoc, List.elem_eq_mem]
  · intro v
    show runRules descriptionRules (some v) = [] ↔ _
    rw [runRules_eq_nil]
    simp [descriptionRules, isStringO, lenAtMost, and_assoc]
  · intro v
    show runRules parentRules (some v) = [] ↔ _
    rw [runRules_eq_nil]
    simp [parentRules, isMongoIdO]
  · intro v
    show runRules isActiveRules (some v) = [] ↔ _
    rw [runRules_eq_nil]
    simp [isActiveRules, isBooleanO, List.elem_eq_mem]
  · intro v
    show runRules createNameRules (some v) = [] ↔ runRules nameShapeRules (some v) = []
    rw [runRules_eq_nil, runRules_eq_nil]
    simp only [createNameRules, nameShapeRules, List.forall_mem_cons, List.forall_mem_nil,
      and_true]
    constructor
    · rintro ⟨-, h⟩
      exact h
    · rintro ⟨hs, hl⟩
      refine ⟨?_, hs, hl⟩
      obtain ⟨s, rfl⟩ := jvalIsString_eq v hs
      have h2 : 2 ≤ s.length := by
        simp [lenBetween, jvalToStr] at hl
        exact hl.1
      exact truthy_of_two_le s h2
  · intro v
    show runRules createTypeRules (some v) = [] ↔ runRules typeShapeRules (some v) = []
    rw [runRules_eq_nil, runRules_eq_nil]
    simp only [createTypeRules, typeShapeRules, List.forall_mem_cons, List.forall_mem_nil,
      and_true]
    constructor
    · rintro ⟨-, h⟩
      exact h
    · rintro ⟨hs, hin⟩
      refine ⟨?_, hs, hin⟩
      obtain ⟨s, rfl⟩ := jvalIsString_eq v hs
      have hmem : s = "product" ∨ s = "blog" := by
        simpa [isInO, jvalToStr, List.elem_eq_mem, List.mem_cons, List.not_mem_nil,
          or_false] using hin
      rcases hmem with h | h
      · subst h
        decide
      · subst h
        decide

/-- C6: a creation payload whose name is a string shorter than 2 or
longer than 100 characters is rejected with the length message. -/
theorem category_name_bad_length_rejected (p : CategoryPayload) (s : String)
    (hname : p.name = some (.str s)) (hlen : s.length < 2 ∨ 100 < s.length) :
    "Category name must be between 2 and 100 characters" ∈ createCategoryValidation p := by
  have hfail : lenBetween 2 100 (some (.str s)) = false := by
    cases hb : lenBetween 2 100 (some (.str s)) with
    | false => rfl
    | true =>
      exfalso
      simp [lenBetween, jvalToStr] at hb
      omega
  have hmem : "Category name must be between 2 and 100 characters" ∈ createNameErrors p.name := by
    rw [hname]
    show _ ∈ runRules createNameRules (some (.str s))
    simp only [createNameRules, runRules, List.foldr, hfail, isStringO, jvalIsString,
      Option.getD_some, Bool.false_eq_true, if_false, if_true]
    split <;> simp
  unfold createCategoryValidation
  exact List.mem_append_left _ (List.mem_append_left _ (List.mem_append_left _ hmem))

/-- C6 witness: a one character name is rejected with the length
message. -/
theorem category_name_bad_length_rejected_witness :
    "Category name must be between 2 and 100 characters" ∈
      createCategoryValidation shortNamePayload :=
  category_name_bad_length_rejected shortNamePayload "a" rfl (by decide)

end TenX
